import Mathlib

/-!
Verification of the attention/drowsiness state machine of EduQuest.

The definitions below are a shallow embedding of `process_attention` in
`src/web_server.py` (the heavier, authoritative variant per the spec), of the
session lifecycle (`start_attention_monitoring`, the `active_sessions` and
`attention_warnings` global maps), and of the shared
`SleepDetection.check_drowsiness` counters in
`src/sleep_detection/sleep_detection_module.py`.

Per-frame detector outputs (face count, eye counts, EAR, area ratio, head
pose) are results of external computer-vision collaborators; they enter the
embedding as free inputs, exactly as the fields the Python code reads off the
`face_results` / `sleep_results` dictionaries. Times are rationals; one
`process` call uses a single wall-clock value `now` (the several `time.time()`
calls inside one request are modelled as equal). Python dict keys that are
read with defaults (`.get('last_warning_time', 0)`,
`.get('eye_closure_start_time')`, `.get('focus_time', 0)`) are modelled as
always-present fields holding the default, which is observationally
equivalent.
-/

namespace EduQuest

/-- Head tilt classification from `detect_head_position`. -/
inductive Tilt
  | left
  | center
  | right
deriving DecidableEq

/-- Head nod classification from `detect_head_position`. -/
inductive Nod
  | up
  | center
  | down
deriving DecidableEq

/-- The fields of `sleep_results[0]` that `process_attention` reads:
`eyes_open`, `eye_data.avg_ear`, `eye_data.eyes_detected`,
`eye_data.eye_area_ratio` (absent key reads as 0), `head_position.tilt`,
`head_position.nod`, `drowsiness.is_drowsy`. -/
structure SleepSignal where
  eyesOpenRaw : Bool
  avgEar : Option ℚ
  eyesDetected : Nat
  eyeAreaRatio : ℚ
  tilt : Tilt
  nod : Nod
  isDrowsy : Bool
deriving DecidableEq

/-- The per-frame inputs of one `process_attention` call:
`len(face_results)` and the first sleep result if any. -/
structure FrameSignals where
  faceCount : Nat
  sleep : Option SleepSignal
deriving DecidableEq

/-- A warning dictionary as built in `process_attention`. Keys that some
warning types do not carry (`play_sound`, `closure_duration`) are `Option`s. -/
structure Warning where
  wtype : String
  message : String
  severity : String
  playSound : Option Bool
  timestamp : ℚ
  closureDuration : Option ℚ
deriving DecidableEq

/-- The `attention_status` dictionary of the response. -/
structure AttentionStatus where
  faceDetected : Bool
  faceCount : Nat
  lookingAtScreen : Bool
  attentionLevel : Int
deriving DecidableEq

/-- The `sleepiness_status` dictionary of the response. -/
structure SleepinessStatus where
  eyesOpen : Bool
  closureDuration : ℚ
  isSleepy : Bool
deriving DecidableEq

/-- The JSON payload returned on the success path of `process_attention`. -/
structure Response where
  status : String
  attention : AttentionStatus
  sleepiness : SleepinessStatus
  warning : Option Warning
deriving DecidableEq

/-- One entry of `active_sessions` for an attention session: the keys set by
`start_attention_monitoring` plus the lazily initialised
`eye_closure_start_time`, `last_warning_time` and `focus_time` (absent keys
read as `None` / `0` via `.get`, so they are modelled as present with the
default). -/
structure SessionState where
  startedAt : ℚ
  warnings : List Warning
  faceDetectedCount : Nat
  noFaceCount : Nat
  lookAwayCount : Nat
  eyeClosureStartTime : Option ℚ
  lastWarningTime : ℚ
  focusTime : Nat
deriving DecidableEq

/-- The session record built by `start_attention_monitoring`. -/
def initialSession (now : ℚ) : SessionState :=
  { startedAt := now
    warnings := []
    faceDetectedCount := 0
    noFaceCount := 0
    lookAwayCount := 0
    eyeClosureStartTime := none
    lastWarningTime := 0
    focusTime := 0 }

/-- The `no_face` warning dictionary (web_server.py lines 371-376). -/
def noFaceWarning (now : ℚ) : Warning :=
  { wtype := "no_face"
    message := "⚠️ Warning: You are not visible on screen. Please return to your seat."
    severity := "high"
    playSound := none
    timestamp := now
    closureDuration := none }

/-- The `sleepiness` warning dictionary (web_server.py lines 435-442). -/
def sleepinessWarning (now dur : ℚ) : Warning :=
  { wtype := "sleepiness"
    message := "😴 Warning: You appear to be sleepy! Please open your eyes and stay alert."
    severity := "high"
    playSound := some true
    timestamp := now
    closureDuration := some dur }

/-- The `look_away` warning dictionary (web_server.py lines 501-507). -/
def lookAwayWarning (now : ℚ) : Warning :=
  { wtype := "look_away"
    message := "⚠️ Warning: Please focus on the screen and pay attention to the class."
    severity := "medium"
    playSound := some false
    timestamp := now
    closureDuration := none }

/-- The eyes-open determination of the warning and score path
(web_server.py lines 393-413): start from the raw `eyes_open`, override it
with `avg_ear > 0.25` when an EAR is supplied, then apply the
`eyes_detected` / `eye_area_ratio` chain, whose branches can only force the
eyes closed. -/
def eyesOpenMain (fc : Nat) (sig : SleepSignal) : Bool :=
  let e1 : Bool :=
    match sig.avgEar with
    | some e => decide ((1 : ℚ)/4 < e)
    | none => sig.eyesOpenRaw
  if sig.eyesDetected = 0 ∧ 0 < fc then false
  else if sig.eyesDetected = 1 then false
  else if 1 < sig.eyesDetected then
    (if sig.eyeAreaRatio < 1/40 then false else e1)
  else e1

/-- The eyes-open recomputation of the response block
(web_server.py lines 530-545): same chain but starting from the raw
`eyes_open` with no EAR override. -/
def eyesOpenRecompute (fc : Nat) (sig : SleepSignal) : Bool :=
  if sig.eyesDetected = 0 ∧ 0 < fc then false
  else if sig.eyesDetected = 1 then false
  else if 1 < sig.eyesDetected then
    (if sig.eyeAreaRatio < 1/40 then false else sig.eyesOpenRaw)
  else sig.eyesOpenRaw

/-- The attention score computation (web_server.py lines 465-490):
30 for the face, plus 40 or minus 20 for the eyes, plus 30 or minus 15 for
the head position, plus 10, minus 10 or 0 from the EAR when supplied,
clamped into [0, 100]. -/
def attentionScore (eo : Bool) (sig : SleepSignal) : Int :=
  let s1 : Int := 30 + (if eo then 40 else -20)
  let s2 : Int := s1 + (if sig.tilt = Tilt.center ∧ sig.nod = Nod.center then 30 else -15)
  let s3 : Int := s2 +
    (match sig.avgEar with
     | some e => if (3 : ℚ)/10 < e then 10 else if e < 1/5 then -10 else 0
     | none => 0)
  max 0 (min 100 s3)

/-- The eye-closure tracking block for a closed-eyes frame
(web_server.py lines 424-447): start the closure clock if unset, and emit the
sleepiness warning when the closure lasted at least 3.0 s and the last
sleepiness warning is at least 5.0 s old. -/
def closureStep (σ : SessionState) (now : ℚ) : Option Warning × SessionState :=
  let start := σ.eyeClosureStartTime.getD now
  let σ1 := { σ with eyeClosureStartTime := some start }
  let dur := now - start
  if 3 ≤ dur ∧ 5 ≤ now - σ1.lastWarningTime then
    (some (sleepinessWarning now dur),
     { σ1 with
        warnings := σ1.warnings ++ [sleepinessWarning now dur]
        lastWarningTime := now })
  else (none, σ1)

/-- The looking-away test of web_server.py line 493:
`tilt != center or nod != center or is_drowsy or not eyes_open`. -/
def lookAwayCond (sig : SleepSignal) (eo : Bool) : Bool :=
  decide (sig.tilt ≠ Tilt.center) || decide (sig.nod ≠ Nod.center) || sig.isDrowsy || !eo

/-- The look-away debounce block (web_server.py lines 493-518). Note that on
`look_away_count > 45` the counter is reset to 0 whether or not the
`look_away` warning was suppressed by an earlier warning of this call. -/
def lookAwayStep (σ : SessionState) (w : Option Warning) (cond : Bool) (now : ℚ) :
    Option Warning × Bool × SessionState :=
  if cond then
    let c := σ.lookAwayCount + 1
    if 45 < c then
      match w with
      | some w0 => (some w0, false, { σ with lookAwayCount := 0 })
      | none =>
          (some (lookAwayWarning now), false,
           { σ with
              lookAwayCount := 0
              warnings := σ.warnings ++ [lookAwayWarning now] })
    else (w, false, { σ with lookAwayCount := c })
  else (w, true, { σ with lookAwayCount := 0, focusTime := σ.focusTime + 1 })

/-- The response `sleepiness_status` recomputation when the session exists
(web_server.py lines 521-564): recompute the eyes from counts and area ratio
only, clear the closure clock when they come out open, otherwise report the
running closure duration. -/
def recomputeStatus (fc : Nat) (sd : Option SleepSignal) (σ : SessionState) (now : ℚ) :
    SleepinessStatus × SessionState :=
  match sd with
  | none => ({ eyesOpen := true, closureDuration := 0, isSleepy := false }, σ)
  | some sig =>
    let eo := eyesOpenRecompute fc sig
    if eo then
      ({ eyesOpen := eo, closureDuration := 0, isSleepy := false },
       { σ with eyeClosureStartTime := none })
    else
      match σ.eyeClosureStartTime with
      | some t =>
          ({ eyesOpen := eo, closureDuration := now - t, isSleepy := decide (3 ≤ now - t) }, σ)
      | none => ({ eyesOpen := eo, closureDuration := 0, isSleepy := false }, σ)

/-- The response `sleepiness_status` when the session identifier is unknown
(the `if session_id in active_sessions` check of line 549 fails). -/
def recomputeNoSession (fs : FrameSignals) : SleepinessStatus :=
  match fs.sleep with
  | none => { eyesOpen := true, closureDuration := 0, isSleepy := false }
  | some sig =>
      { eyesOpen := eyesOpenRecompute fs.faceCount sig
        closureDuration := 0
        isSleepy := false }

/-- One `process_attention` call on an existing session record: the no-face
branch (lines 363-381), the face branch with its eye determination, closure
tracking, score and look-away debounce (lines 382-518), then the response
recomputation (lines 520-564), which also mutates the closure clock. The
`if sleepiness_status in locals()` block of lines 452-454 is dead code (that
name is first bound at line 521, after this point of the call) and is
omitted. -/
def stepSession (σ : SessionState) (fs : FrameSignals) (now : ℚ) :
    Response × SessionState :=
  if fs.faceCount = 0 then
    let σ1 := { σ with noFaceCount := σ.noFaceCount + 1 }
    let wσ : Option Warning × SessionState :=
      if 60 < σ1.noFaceCount then
        (some (noFaceWarning now),
         { σ1 with
            noFaceCount := 0
            warnings := σ1.warnings ++ [noFaceWarning now] })
      else (none, σ1)
    let rσ := recomputeStatus fs.faceCount fs.sleep wσ.2 now
    ({ status := "success"
       attention :=
         { faceDetected := decide (0 < fs.faceCount)
           faceCount := fs.faceCount
           lookingAtScreen := false
           attentionLevel := 0 }
       sleepiness := rσ.1
       warning := wσ.1 }, rσ.2)
  else
    let σ1 := { σ with noFaceCount := 0, faceDetectedCount := σ.faceDetectedCount + 1 }
    match fs.sleep with
    | none =>
      let rσ := recomputeStatus fs.faceCount none σ1 now
      ({ status := "success"
         attention :=
           { faceDetected := decide (0 < fs.faceCount)
             faceCount := fs.faceCount
             lookingAtScreen := false
             attentionLevel := 0 }
         sleepiness := rσ.1
         warning := none }, rσ.2)
    | some sig =>
      let eo := eyesOpenMain fs.faceCount sig
      let wσ : Option Warning × SessionState :=
        if eo then (none, { σ1 with eyeClosureStartTime := none })
        else closureStep σ1 now
      let score := attentionScore eo sig
      let wlσ := lookAwayStep wσ.2 wσ.1 (lookAwayCond sig eo) now
      let rσ := recomputeStatus fs.faceCount (some sig) wlσ.2.2 now
      ({ status := "success"
         attention :=
           { faceDetected := decide (0 < fs.faceCount)
             faceCount := fs.faceCount
             lookingAtScreen := wlσ.2.1
             attentionLevel := score }
         sleepiness := rσ.1
         warning := wlσ.1 }, rσ.2)

/-- The mutable global maps of web_server.py that the attention endpoints
touch: `active_sessions` and `attention_warnings` (an absent
`attention_warnings` entry behaves as the empty list). -/
structure GlobalState where
  sessions : String → Option SessionState
  attnWarnings : String → List Warning

/-- The server before any session is started. -/
def emptyGlobal : GlobalState :=
  { sessions := fun _ => none, attnWarnings := fun _ => [] }

/-- `start_attention_monitoring`: install a fresh session record. -/
def startAttention (g : GlobalState) (sid : String) (now : ℚ) : GlobalState :=
  { g with sessions := fun s => if s = sid then some (initialSession now) else g.sessions s }

/-- Write back a processed session record and its newly appended warnings. -/
def updSessions (g : GlobalState) (sid : String) (σ : SessionState) (nw : List Warning) :
    GlobalState :=
  { sessions := fun s => if s = sid then some σ else g.sessions s
    attnWarnings := fun s => if s = sid then g.attnWarnings s ++ nw else g.attnWarnings s }

/-- The whole `process_attention` call given the decoded frame signals.
`none` models the unhandled `KeyError` of line 384 (the face branch writes
`active_sessions[session_id]['no_face_count']` without a membership check),
which the catch-all handler turns into an error response; the global state is
then untouched. With no face and an unknown session the call succeeds without
creating any session record. Every warning the call emits is appended both to
the session record and to `attention_warnings[session_id]`. -/
def processAttention (g : GlobalState) (sid : String) (fs : FrameSignals) (now : ℚ) :
    Option (Response × GlobalState) :=
  match g.sessions sid with
  | some σ =>
    let rσ := stepSession σ fs now
    some (rσ.1, updSessions g sid rσ.2 rσ.1.warning.toList)
  | none =>
    if fs.faceCount = 0 then
      some
        ({ status := "success"
           attention :=
             { faceDetected := decide (0 < fs.faceCount)
               faceCount := fs.faceCount
               lookingAtScreen := false
               attentionLevel := 0 }
           sleepiness := recomputeNoSession fs
           warning := none }, g)
    else none

/-- A sequence of calls on one session record, collecting the responses. -/
def runCalls : SessionState → List (FrameSignals × ℚ) → List Response × SessionState
  | σ, [] => ([], σ)
  | σ, c :: t =>
    let rσ := stepSession σ c.1 c.2
    let rest := runCalls rσ.2 t
    (rσ.1 :: rest.1, rest.2)

/-- One `process_attention` request against the server: a session identifier,
the decoded per-frame signals and the wall-clock time of the call. -/
structure Event where
  sid : String
  fs : FrameSignals
  now : ℚ

/-- One request against the global maps. A `none` result (the `KeyError`
path) leaves the global state untouched, as the exception handler of
`process_attention` does. -/
def stepE (g : GlobalState) (e : Event) : GlobalState × Option Response :=
  match processAttention g e.sid e.fs e.now with
  | some rg => (rg.2, some rg.1)
  | none => (g, none)

/-- The global state after a sequence of requests. -/
def runE : GlobalState → List Event → GlobalState
  | g, [] => g
  | g, e :: t => runE (stepE g e).1 t

/-- The responses of a sequence of requests, each tagged with its session
identifier. -/
def traceE : GlobalState → List Event → List (String × Option Response)
  | _, [] => []
  | g, e :: t => (e.sid, (stepE g e).2) :: traceE (stepE g e).1 t

/-- The mutable per-face state of the globally shared `SleepDetection`
instance (sleep_detection_module.py lines 37-39): `eye_closure_counter` and
`eye_closure_history`, both dictionaries keyed by the face identifier
(`face_0`, `face_1`, ...), with absent keys behaving as `0` / `[]` after the
initialisation of lines 184-186. -/
structure DrowsyState where
  eyeClosureCounter : String → Nat
  eyeClosureHistory : String → List Nat

/-- The detector before any frame was processed. -/
def initDrowsyState : DrowsyState :=
  { eyeClosureCounter := fun _ => 0, eyeClosureHistory := fun _ => [] }

/-- The dictionary `check_drowsiness` returns. -/
structure DrowsinessResult where
  isDrowsy : Bool
  isSleepy : Bool
  drowsinessLevel : String
  closureFrames : Nat
  closureRatio : ℚ
deriving DecidableEq

/-- `SleepDetection.check_drowsiness` (sleep_detection_module.py lines
171-218): bump or reset the per-face closure counter, append to the history
capped at 30 frames, and report `is_drowsy` when the counter reached
`EAR_CONSECUTIVE_FRAMES = 3`. -/
def checkDrowsiness (d : DrowsyState) (faceId : String) (eyesOpen : Bool) :
    DrowsinessResult × DrowsyState :=
  let counter := if eyesOpen then 0 else d.eyeClosureCounter faceId + 1
  let hist0 := d.eyeClosureHistory faceId ++ [if eyesOpen then 0 else 1]
  let hist := if 30 < hist0.length then hist0.drop 1 else hist0
  let ratio : ℚ := (hist.sum : ℚ) / (hist.length : ℚ)
  let isDrowsy := decide (3 ≤ counter)
  let isSleepy := decide ((1 : ℚ)/2 < ratio)
  ({ isDrowsy := isDrowsy
     isSleepy := isSleepy
     drowsinessLevel :=
       if isSleepy then "sleepy" else if isDrowsy then "drowsy" else "awake"
     closureFrames := counter
     closureRatio := ratio },
   { eyeClosureCounter := fun f => if f = faceId then counter else d.eyeClosureCounter f
     eyeClosureHistory := fun f => if f = faceId then hist else d.eyeClosureHistory f })

/-- The per-frame, stateless outputs of the cascade and landmark detectors
for the first face the sleep detector finds: everything
`SleepDetection.process_frame` puts into its result except the stateful
`drowsiness` dictionary. -/
structure PureFaceData where
  eyesOpenCV : Bool
  avgEar : Option ℚ
  eyesDetected : Nat
  eyeAreaRatio : ℚ
  tilt : Tilt
  nod : Nod
deriving DecidableEq

/-- A frame as the two detectors see it: how many faces the face detector
reports, and the sleep detector output for its first face, if it finds one.
The source loops over every face the sleep cascade finds; frames with at
most one such face are modelled, which is all `process_attention` consumes
(it reads `sleep_results[0]` only). -/
structure Frame where
  faceCount : Nat
  sleepFace : Option PureFaceData
deriving DecidableEq

/-- `SleepDetection.process_frame` for a frame with at most one face
(sleep_detection_module.py lines 219-272): combine the pure per-frame eye and
head data with the shared `check_drowsiness` state under the key `face_0`,
and return the signals `process_attention` reads off the first result. -/
def sleepProcessFrame (d : DrowsyState) (f : Frame) : Option SleepSignal × DrowsyState :=
  match f.sleepFace with
  | none => (none, d)
  | some p =>
    let rd := checkDrowsiness d "face_0" p.eyesOpenCV
    (some
      { eyesOpenRaw := p.eyesOpenCV
        avgEar := p.avgEar
        eyesDetected := p.eyesDetected
        eyeAreaRatio := p.eyeAreaRatio
        tilt := p.tilt
        nod := p.nod
        isDrowsy := rd.1.isDrowsy }, rd.2)

/-- The whole process-wide mutable state the attention endpoint touches: the
global session maps and the shared sleep-detector state. -/
structure EndpointState where
  g : GlobalState
  detector : DrowsyState

/-- A `process_attention` request at the endpoint level: the shared sleep
detector derives the frame signals (mutating its per-face counters), then
the session logic runs. The detector mutation persists even when the session
logic raises. -/
def processAttentionEndpoint (E : EndpointState) (sid : String) (f : Frame) (now : ℚ) :
    Option Response × EndpointState :=
  let sd := sleepProcessFrame E.detector f
  match processAttention E.g sid { faceCount := f.faceCount, sleep := sd.1 } now with
  | some rg => (some rg.1, { g := rg.2, detector := sd.2 })
  | none => (none, { g := E.g, detector := sd.2 })

/-! Spec-side re-statements, for comparison with the definitions embedded
from the source. -/

/-- The attention-score formula as the spec words it: 30 for the face, plus
40 if the eyes are open else minus 20, plus 30 if tilt and nod are both
center else minus 15, plus 10 if the EAR exceeds 0.3, minus 10 if it is
below 0.2, else 0, clamped to [0, 100]. -/
def specAttentionScore (eyesOpen : Bool) (sig : SleepSignal) : Int :=
  let base : Int := 30
  let eyeTerm : Int := if eyesOpen then 40 else -20
  let headTerm : Int := if sig.tilt = Tilt.center ∧ sig.nod = Nod.center then 30 else -15
  let earTerm : Int :=
    match sig.avgEar with
    | some e => if (3 : ℚ)/10 < e then 10 else if e < (1 : ℚ)/5 then -10 else 0
    | none => 0
  min 100 (max 0 (base + eyeTerm + headTerm + earTerm))

/-- The eyes-open determination as the code actually behaves for a frame with
a face present (the amended form of the spec policy): zero or one detected
eyes force the eyes closed regardless of any EAR, more than one detected eye
with a small area ratio forces them closed, and otherwise the EAR rule
(open iff EAR exceeds 0.25) decides when an EAR is supplied, else the
upstream eyes-open flag stands. -/
def eyesOpenAmended (sig : SleepSignal) : Bool :=
  if sig.eyesDetected = 0 then false
  else if sig.eyesDetected = 1 then false
  else if sig.eyeAreaRatio < 1/40 then false
  else
    match sig.avgEar with
    | some e => decide ((1 : ℚ)/4 < e)
    | none => sig.eyesOpenRaw

/-! Concrete inputs used by the closed theorems below. -/

/-- A frame with one face whose eyes are closed (no eyes detected by the
cascade), head centered. -/
def sigClosed : SleepSignal :=
  { eyesOpenRaw := false, avgEar := none, eyesDetected := 0, eyeAreaRatio := 0,
    tilt := Tilt.center, nod := Nod.center, isDrowsy := false }

/-- Frame signals: one face, eyes closed. -/
def closedFrame : FrameSignals := { faceCount := 1, sleep := some sigClosed }

/-- Frame signals: no face found by either detector. -/
def noFaceFrame : FrameSignals := { faceCount := 0, sleep := none }

/-- Frame signals: a face found by the face detector but none by the sleep
detector. -/
def faceNoSleepFrame : FrameSignals := { faceCount := 1, sleep := none }

/-- The response of a quiet no-face call. -/
def noFaceQuietResp : Response :=
  { status := "success"
    attention :=
      { faceDetected := false, faceCount := 0, lookingAtScreen := false, attentionLevel := 0 }
    sleepiness := { eyesOpen := true, closureDuration := 0, isSleepy := false }
    warning := none }

/-- A session 45 look-away frames deep whose eye closure started at time 100
and which never warned. -/
def σc : SessionState :=
  { initialSession 0 with lookAwayCount := 45, eyeClosureStartTime := some 100 }

/-- A session with a running look-away streak and closure clock. -/
def σ4 : SessionState :=
  { initialSession 0 with lookAwayCount := 5, eyeClosureStartTime := some 50 }

/-- A session that has already seen 60 consecutive no-face frames. -/
def σ60 : SessionState := { initialSession 0 with noFaceCount := 60 }

/-- Two eyes detected, a healthy area ratio, but a supplied EAR of 0.2. -/
def sig5a : SleepSignal :=
  { eyesOpenRaw := true, avgEar := some (1/5), eyesDetected := 2, eyeAreaRatio := 3/100,
    tilt := Tilt.center, nod := Nod.center, isDrowsy := false }

/-- The landmark path: an EAR of 0.35 supplied with no eye counts. -/
def sig5b : SleepSignal :=
  { eyesOpenRaw := true, avgEar := some (7/20), eyesDetected := 0, eyeAreaRatio := 0,
    tilt := Tilt.center, nod := Nod.center, isDrowsy := false }

/-- Eyes open, head centered, EAR 0.35. -/
def sigEx1 : SleepSignal :=
  { eyesOpenRaw := true, avgEar := some (7/20), eyesDetected := 2, eyeAreaRatio := 1/10,
    tilt := Tilt.center, nod := Nod.center, isDrowsy := false }

/-- Eyes closed (no eyes detected), tilt left, no EAR supplied. -/
def sigEx2 : SleepSignal :=
  { eyesOpenRaw := true, avgEar := none, eyesDetected := 0, eyeAreaRatio := 0,
    tilt := Tilt.left, nod := Nod.center, isDrowsy := false }

/-- Frame signals for the two score examples. -/
def fsEx1 : FrameSignals := { faceCount := 1, sleep := some sigEx1 }

/-- Frame signals for the clamped-to-zero score example. -/
def fsEx2 : FrameSignals := { faceCount := 1, sleep := some sigEx2 }

/-- Upstream eyes-open false, EAR 0.2 supplied, two eyes, healthy area. -/
def sig10 : SleepSignal :=
  { eyesOpenRaw := false, avgEar := some (1/5), eyesDetected := 2, eyeAreaRatio := 3/100,
    tilt := Tilt.center, nod := Nod.center, isDrowsy := false }

/-- Same signals with the upstream eyes-open flag true. -/
def sig10t : SleepSignal := { sig10 with eyesOpenRaw := true }

/-- Frame signals around `sig10`. -/
def fs10 : FrameSignals := { faceCount := 1, sleep := some sig10 }

/-- Frame signals around `sig10t`. -/
def fs10t : FrameSignals := { faceCount := 1, sleep := some sig10t }

/-- An endpoint-level frame: one face, eyes closed at the cascade level. -/
def closedEndpointFrame : Frame :=
  { faceCount := 1
    sleepFace := some
      { eyesOpenCV := false, avgEar := none, eyesDetected := 0, eyeAreaRatio := 0,
        tilt := Tilt.center, nod := Nod.center } }

/-- The endpoint after sessions A and B are started, before any frame. -/
def endpointE0 : EndpointState :=
  { g := startAttention (startAttention emptyGlobal "A" 0) "B" 0
    detector := initDrowsyState }

/-- The endpoint after session A processed one closed-eyes frame. -/
def endpointE1 : EndpointState :=
  (processAttentionEndpoint endpointE0 "A" closedEndpointFrame 1).2

/-- The endpoint after session A processed two closed-eyes frames. -/
def endpointE2 : EndpointState :=
  (processAttentionEndpoint endpointE1 "A" closedEndpointFrame 2).2

/-! Helper lemmas. -/

/-- The two clamp orders agree. -/
theorem clamp_comm (s : Int) : max 0 (min 100 s) = min 100 (max 0 s) := by
  omega

/-- Both attention-score definitions agree. -/
theorem attentionScore_eq_spec (eo : Bool) (sig : SleepSignal) :
    attentionScore eo sig = specAttentionScore eo sig := by
  unfold attentionScore specAttentionScore
  exact clamp_comm _

/-- The look-away debounce never turns a warning into a sleepiness warning
and never drops one: its result is sleepiness-typed exactly when its input
warning is. -/
theorem lookAwayStep_wtype (σ : SessionState) (w : Option Warning) (c : Bool) (now : ℚ) :
    ((lookAwayStep σ w c now).1.map (fun x => x.wtype) = some "sleepiness") ↔
      (w.map (fun x => x.wtype) = some "sleepiness") := by
  unfold lookAwayStep
  cases c with
  | false => simp
  | true =>
      cases w with
      | none =>
          by_cases h45 : 45 < σ.lookAwayCount + 1 <;> simp [h45, lookAwayWarning]
      | some w0 =>
          by_cases h45 : 45 < σ.lookAwayCount + 1 <;> simp [h45]

/-- The look-away debounce does not touch the closure clock, the no-face
streak or the last-warning clock. -/
theorem lookAwayStep_frame (σ : SessionState) (w : Option Warning) (c : Bool) (now : ℚ) :
    (lookAwayStep σ w c now).2.2.eyeClosureStartTime = σ.eyeClosureStartTime ∧
    (lookAwayStep σ w c now).2.2.noFaceCount = σ.noFaceCount ∧
    (lookAwayStep σ w c now).2.2.lastWarningTime = σ.lastWarningTime := by
  unfold lookAwayStep
  cases c with
  | false => simp
  | true =>
      cases w with
      | none => by_cases h45 : 45 < σ.lookAwayCount + 1 <;> simp [h45]
      | some w0 => by_cases h45 : 45 < σ.lookAwayCount + 1 <;> simp [h45]

/-- The response recomputation does not touch the streak counters. -/
theorem recomputeStatus_frame (fc : Nat) (sd : Option SleepSignal) (σ : SessionState) (now : ℚ) :
    (recomputeStatus fc sd σ now).2.noFaceCount = σ.noFaceCount ∧
    (recomputeStatus fc sd σ now).2.lookAwayCount = σ.lookAwayCount := by
  unfold recomputeStatus
  cases sd with
  | none => simp
  | some sig =>
      by_cases heo : eyesOpenRecompute fc sig = true
      · simp [heo]
      · cases ht : σ.eyeClosureStartTime <;>
          simp [heo, ht]

/-- A quiet no-face call: when the incremented streak stays at or below 60
the call returns the quiet response and only bumps the streak. -/
theorem stepSession_noFace_quiet (σ : SessionState) (now : ℚ)
    (h : ¬ 60 < σ.noFaceCount + 1) :
    stepSession σ noFaceFrame now =
      (noFaceQuietResp, { σ with noFaceCount := σ.noFaceCount + 1 }) := by
  unfold stepSession
  simp [noFaceFrame, h, recomputeStatus, noFaceQuietResp]

/-- A warning no-face call: when the incremented streak exceeds 60 the call
emits the no-face warning and resets the streak to 0. -/
theorem stepSession_noFace_warn (σ : SessionState) (now : ℚ)
    (h : 60 < σ.noFaceCount + 1) :
    stepSession σ noFaceFrame now =
      ({ noFaceQuietResp with warning := some (noFaceWarning now) },
       { σ with noFaceCount := 0, warnings := σ.warnings ++ [noFaceWarning now] }) := by
  unfold stepSession
  simp [noFaceFrame, h, recomputeStatus, noFaceQuietResp]

/-- `runCalls` splits over list append. -/
theorem runCalls_append (l1 l2 : List (FrameSignals × ℚ)) (σ : SessionState) :
    runCalls σ (l1 ++ l2) =
      ((runCalls σ l1).1 ++ (runCalls (runCalls σ l1).2 l2).1,
       (runCalls (runCalls σ l1).2 l2).2) := by
  induction l1 generalizing σ with
  | nil => simp [runCalls]
  | cons c t ih => simp [runCalls, ih]

/-- A run of k quiet no-face calls bumps the streak by k and answers the
quiet response each time. -/
theorem runCalls_noFace (k : Nat) :
    ∀ σ : SessionState, σ.noFaceCount + k ≤ 60 →
      runCalls σ (List.replicate k (noFaceFrame, (0 : ℚ))) =
        (List.replicate k noFaceQuietResp, { σ with noFaceCount := σ.noFaceCount + k }) := by
  induction k with
  | zero => intro σ _; simp [runCalls]
  | succ k ih =>
      intro σ h
      rw [List.replicate_succ]
      have h1 : ¬ 60 < σ.noFaceCount + 1 := by omega
      simp only [runCalls, stepSession_noFace_quiet σ 0 h1]
      have h2 : ({ σ with noFaceCount := σ.noFaceCount + 1 } :
          SessionState).noFaceCount + k ≤ 60 := by simp; omega
      rw [ih _ h2]
      simp only [List.replicate_succ]
      have h3 : σ.noFaceCount + 1 + k = σ.noFaceCount + (k + 1) := by omega
      simp [h3]

/-- The closure clock and look-away steps leave the look-away counter and
the closure clock of the session as stated: `closureStep` keeps the
look-away counter. -/
theorem closureStep_frame (σ : SessionState) (now : ℚ) :
    (closureStep σ now).2.lookAwayCount = σ.lookAwayCount ∧
    (closureStep σ now).2.noFaceCount = σ.noFaceCount := by
  unfold closureStep
  by_cases h : 3 ≤ now - σ.eyeClosureStartTime.getD now ∧
      5 ≤ now - σ.lastWarningTime <;> simp [h]

/-! Claim theorems. -/

/-- C3 (confirmed): from a freshly started session, 60 consecutive no-face
calls answer the quiet response (no warning), and the 61st call emits
exactly one `no_face` warning of severity high and resets the no-face
streak to 0. -/
theorem C3_theorem :
    (runCalls (initialSession 0) (List.replicate 61 (noFaceFrame, (0 : ℚ)))).1 =
      List.replicate 60 noFaceQuietResp ++
        [{ noFaceQuietResp with warning := some (noFaceWarning 0) }] ∧
    noFaceQuietResp.warning = none ∧
    (noFaceWarning 0).wtype = "no_face" ∧
    (noFaceWarning 0).severity = "high" ∧
    (runCalls (initialSession 0) (List.replicate 61 (noFaceFrame, (0 : ℚ)))).2.noFaceCount = 0 := by
  have h61 : List.replicate 61 ((noFaceFrame, (0 : ℚ))) =
      List.replicate 60 (noFaceFrame, (0 : ℚ)) ++ [(noFaceFrame, (0 : ℚ))] := by
    rw [show (61 : Nat) = 60 + 1 from rfl, List.replicate_succ']
  have hrun := runCalls_noFace 60 (initialSession 0) (by simp [initialSession])
  rw [h61, runCalls_append, hrun]
  refine ⟨?_, by simp [noFaceQuietResp], by simp [noFaceWarning],
    by simp [noFaceWarning], ?_⟩ <;>
    norm_num [initialSession, runCalls, stepSession, noFaceFrame, recomputeStatus,
      noFaceQuietResp, noFaceWarning]

/-- C1 (counterexample): a call in which the sleepiness conditions hold and
the incremented look-away streak exceeds its threshold returns the
sleepiness warning, yet the look-away streak IS reset to 0 by the
suppressed look-away branch, contradicting the claim that suppression
leaves the streak untouched. -/
theorem C1_counterexample :
    σc.lookAwayCount = 45 ∧
    (stepSession σc closedFrame 103).1.warning = some (sleepinessWarning 103 3) ∧
    (stepSession σc closedFrame 103).2.lookAwayCount = 0 := by
  refine ⟨rfl, ?_⟩
  norm_num [stepSession, σc, closedFrame, sigClosed, initialSession, eyesOpenMain,
    closureStep, lookAwayStep, lookAwayCond, recomputeStatus, eyesOpenRecompute,
    attentionScore, sleepinessWarning]

/-- C1 (amended): when the sleepiness-warning conditions hold and the
incremented look-away streak exceeds 45 in the same call, only the
sleepiness warning is returned (the look-away warning is suppressed), and
the look-away streak is reset to 0 by the suppressed branch all the same. -/
theorem C1_theorem (σ : SessionState) (fs : FrameSignals) (now : ℚ) (sig : SleepSignal)
    (hs : fs.sleep = some sig) (hfc : 0 < fs.faceCount)
    (heo : eyesOpenMain fs.faceCount sig = false)
    (h3 : 3 ≤ now - σ.eyeClosureStartTime.getD now)
    (h5 : 5 ≤ now - σ.lastWarningTime)
    (h45 : 45 < σ.lookAwayCount + 1) :
    (stepSession σ fs now).1.warning.map (fun w => w.wtype) = some "sleepiness" ∧
    (stepSession σ fs now).2.lookAwayCount = 0 := by
  obtain ⟨fc, sd⟩ := fs
  simp only at hs hfc heo
  subst hs
  unfold stepSession
  rw [if_neg hfc.ne']
  simp only [heo, Bool.false_eq_true, if_false]
  unfold closureStep
  simp only
  rw [if_pos ⟨h3, h5⟩]
  have hcond : lookAwayCond sig false = true := by
    simp [lookAwayCond]
  rw [hcond]
  unfold lookAwayStep
  simp only [if_true]
  rw [if_pos h45]
  refine ⟨by simp [sleepinessWarning], ?_⟩
  rw [(recomputeStatus_frame _ _ _ _).2]

/-- C1 (witness): the amended statement at the concrete suppression input. -/
theorem C1_witness :
    (stepSession σc closedFrame 103).1.warning.map (fun w => w.wtype) = some "sleepiness" ∧
    (stepSession σc closedFrame 103).2.lookAwayCount = 0 :=
  C1_theorem σc closedFrame 103 sigClosed rfl (by norm_num [closedFrame])
    (by norm_num [eyesOpenMain, closedFrame, sigClosed])
    (by norm_num [σc, initialSession]) (by norm_num [σc, initialSession])
    (by norm_num [σc, initialSession])

/-- C4 (counterexample): a no-face call on a session with a running
look-away streak of 5 and a set closure clock leaves both untouched (the
claim says it resets them); only the no-face streak moves. -/
theorem C4_counterexample :
    σ4.lookAwayCount = 5 ∧ σ4.eyeClosureStartTime = some 50 ∧
    (stepSession σ4 noFaceFrame 100).2.lookAwayCount = 5 ∧
    (stepSession σ4 noFaceFrame 100).2.eyeClosureStartTime = some 50 ∧
    (stepSession σ4 noFaceFrame 100).2.noFaceCount = 1 := by
  norm_num [stepSession, σ4, noFaceFrame, initialSession, recomputeStatus]

/-- C4 (amended): a call with no face increments the no-face streak
(warning-resetting it past 60) and leaves the look-away streak unchanged;
the closure clock is also left unchanged, except that when the sleep
detector still returned a result whose recomputed eyes (counts and area
ratio, no EAR rule) come out open, the response-recompute block clears the
clock to none. A call with a face present resets the no-face streak to 0. -/
theorem C4_theorem (σ : SessionState) (fs : FrameSignals) (now : ℚ) :
    (fs.faceCount = 0 →
      ((stepSession σ fs now).2.lookAwayCount = σ.lookAwayCount ∧
       (stepSession σ fs now).2.noFaceCount =
         (if 60 < σ.noFaceCount + 1 then 0 else σ.noFaceCount + 1) ∧
       (stepSession σ fs now).2.eyeClosureStartTime =
         (match fs.sleep with
          | none => σ.eyeClosureStartTime
          | some sig =>
              if eyesOpenRecompute fs.faceCount sig then none
              else σ.eyeClosureStartTime))) ∧
    (0 < fs.faceCount → (stepSession σ fs now).2.noFaceCount = 0) := by
  obtain ⟨fc, sd⟩ := fs
  constructor
  · intro h0
    simp only at h0
    subst h0
    cases sd with
    | none =>
        by_cases h60 : 60 < σ.noFaceCount + 1 <;>
          simp [stepSession, recomputeStatus, h60]
    | some sig =>
        by_cases h60 : 60 < σ.noFaceCount + 1 <;>
        by_cases heo : eyesOpenRecompute 0 sig = true <;>
        cases ht : σ.eyeClosureStartTime <;>
          simp [stepSession, recomputeStatus, h60, heo, ht]
  · intro hfc
    simp only at hfc
    unfold stepSession
    rw [if_neg hfc.ne']
    cases sd with
    | none => simp [recomputeStatus]
    | some sig =>
        simp only
        rw [(recomputeStatus_frame _ _ _ _).1, (lookAwayStep_frame _ _ _ _).2.1]
        by_cases heo : eyesOpenMain fc sig = true
        · simp [heo]
        · simp only [heo, Bool.false_eq_true, if_false]
          rw [(closureStep_frame _ _).2]

/-- C4 (witness): the amended statement at the concrete no-face input. -/
theorem C4_witness :
    (stepSession σ4 noFaceFrame 100).2.lookAwayCount = σ4.lookAwayCount ∧
    (stepSession σ4 noFaceFrame 100).2.noFaceCount =
      (if 60 < σ4.noFaceCount + 1 then 0 else σ4.noFaceCount + 1) ∧
    (stepSession σ4 noFaceFrame 100).2.eyeClosureStartTime =
      (match noFaceFrame.sleep with
       | none => σ4.eyeClosureStartTime
       | some sig =>
           if eyesOpenRecompute noFaceFrame.faceCount sig then none
           else σ4.eyeClosureStartTime) :=
  (C4_theorem σ4 noFaceFrame 100).1 rfl

/-- C5 (counterexample): with two eyes detected and a healthy area ratio but
a supplied EAR of 0.2 the eyes are determined closed, against the claim that
more than one detected eye with area ratio at least 0.025 means open; and on
the landmark path (EAR 0.35 supplied, no counts) the eyes are also
determined closed, against the claimed EAR-only rule. -/
theorem C5_counterexample :
    1 < sig5a.eyesDetected ∧ ¬ sig5a.eyeAreaRatio < 1/40 ∧ eyesOpenMain 1 sig5a = false ∧
    sig5b.avgEar = some (7/20) ∧ (1 : ℚ)/4 < 7/20 ∧ eyesOpenMain 1 sig5b = false := by
  norm_num [sig5a, sig5b, eyesOpenMain]

/-- C5 (amended): for a frame with a face present, the eyes-open
determination is: zero or one detected eyes force closed regardless of any
EAR; more than one detected eye with area ratio below 0.025 forces closed;
otherwise the supplied EAR decides (open iff above 0.25), and with no EAR
the upstream eyes-open flag stands. -/
theorem C5_theorem (fc : Nat) (sig : SleepSignal) (hfc : 0 < fc) :
    eyesOpenMain fc sig = eyesOpenAmended sig := by
  unfold eyesOpenMain eyesOpenAmended
  by_cases h0 : sig.eyesDetected = 0
  · simp [h0, hfc]
  · by_cases h1 : sig.eyesDetected = 1
    · simp [h0, h1]
    · have h2 : 1 < sig.eyesDetected := by omega
      by_cases ha : sig.eyeAreaRatio < 1/40 <;>
        simp [h0, h1, h2, ha]

/-- C5 (witness): the amended determination at the concrete inputs. -/
theorem C5_witness : eyesOpenMain 1 sig5a = eyesOpenAmended sig5a :=
  C5_theorem 1 sig5a (by norm_num)

/-- C6 (confirmed): for every call with a face present and sleep data, the
returned attention level is the spec formula (30 for the face, 40 or minus
20 for the eyes, 30 or minus 15 for the head, 10, minus 10 or 0 from the
EAR, clamped to [0, 100]); at eyes open, head centered, EAR 0.35 the level
is 100, and at eyes closed, tilt left, no EAR it is minus 5 clamped to 0. -/
theorem C6_theorem :
    (∀ (σ : SessionState) (fs : FrameSignals) (now : ℚ) (sig : SleepSignal),
        fs.sleep = some sig → 0 < fs.faceCount →
        (stepSession σ fs now).1.attention.attentionLevel =
          specAttentionScore (eyesOpenMain fs.faceCount sig) sig) ∧
    (stepSession (initialSession 0) fsEx1 0).1.attention.attentionLevel = 100 ∧
    sigEx1.avgEar = some (7/20) ∧ eyesOpenMain 1 sigEx1 = true ∧
    (stepSession (initialSession 0) fsEx2 0).1.attention.attentionLevel = 0 ∧
    sigEx2.tilt = Tilt.left ∧ sigEx2.avgEar = none ∧ eyesOpenMain 1 sigEx2 = false := by
  refine ⟨?_, ?_, rfl, by norm_num [eyesOpenMain, sigEx1], ?_, rfl, rfl,
    by norm_num [eyesOpenMain, sigEx2]⟩
  · intro σ fs now sig hs hfc
    obtain ⟨fc, sd⟩ := fs
    simp only at hs hfc
    subst hs
    unfold stepSession
    rw [if_neg hfc.ne']
    exact attentionScore_eq_spec (eyesOpenMain fc sig) sig
  · norm_num [stepSession, initialSession, fsEx1, sigEx1, eyesOpenMain, closureStep,
      lookAwayStep, lookAwayCond, recomputeStatus, eyesOpenRecompute, attentionScore]
  · norm_num [stepSession, initialSession, fsEx2, sigEx2, eyesOpenMain, closureStep,
      lookAwayStep, lookAwayCond, recomputeStatus, eyesOpenRecompute, attentionScore]
    decide

/-- C9 (counterexample): the emitted no-face warning message is the claimed
text preceded by a warning prefix, not the claimed text alone. -/
theorem C9_counterexample :
    (stepSession σ60 noFaceFrame 5).1.warning.map (fun w => w.message) =
      some "⚠️ Warning: You are not visible on screen. Please return to your seat." ∧
    "⚠️ Warning: You are not visible on screen. Please return to your seat." ≠
      "You are not visible on screen. Please return to your seat." := by
  constructor
  · norm_num [stepSession, σ60, noFaceFrame, initialSession, recomputeStatus, noFaceWarning]
  · decide

/-- C9 (amended): every emitted warning carries the fixed text of its type,
namely the claimed sentences each preceded by an emoji and the prefix
Warning with a colon. -/
theorem C9_theorem (σ : SessionState) (fs : FrameSignals) (now : ℚ) (w : Warning)
    (hw : (stepSession σ fs now).1.warning = some w) :
    (w.wtype = "no_face" →
      w.message = "⚠️ Warning: You are not visible on screen. Please return to your seat.") ∧
    (w.wtype = "look_away" →
      w.message = "⚠️ Warning: Please focus on the screen and pay attention to the class.") ∧
    (w.wtype = "sleepiness" →
      w.message = "😴 Warning: You appear to be sleepy! Please open your eyes and stay alert.") := by
  have hshape : w = noFaceWarning now ∨ w = lookAwayWarning now ∨
      ∃ d, w = sleepinessWarning now d := by
    obtain ⟨fc, sd⟩ := fs
    unfold stepSession at hw
    by_cases h0 : fc = 0
    · subst h0
      simp only [if_pos rfl] at hw
      by_cases h60 : 60 < σ.noFaceCount + 1 <;> simp [h60] at hw
      · exact Or.inl hw.symm
    · rw [if_neg h0] at hw
      cases sd with
      | none => simp at hw
      | some sig =>
          simp only at hw
          set w1σ : Option Warning × SessionState :=
            (if eyesOpenMain fc sig = true then
              (none, { σ with
                  noFaceCount := 0
                  faceDetectedCount := σ.faceDetectedCount + 1
                  eyeClosureStartTime := none })
            else closureStep { σ with
                  noFaceCount := 0
                  faceDetectedCount := σ.faceDetectedCount + 1 } now) with hw1
          have hshape1 : w1σ.1 = none ∨ ∃ d, w1σ.1 = some (sleepinessWarning now d) := by
            rw [hw1]
            by_cases heo : eyesOpenMain fc sig = true
            · simp [heo]
            · simp only [heo, Bool.false_eq_true, if_false]
              unfold closureStep
              by_cases hc : 3 ≤ now - Option.getD
                  ({ σ with
                      noFaceCount := 0
                      faceDetectedCount := σ.faceDetectedCount + 1 } :
                    SessionState).eyeClosureStartTime now ∧
                  5 ≤ now - ({ σ with
                      noFaceCount := 0
                      faceDetectedCount := σ.faceDetectedCount + 1 } :
                    SessionState).lastWarningTime
              · rw [if_pos hc]
                exact Or.inr ⟨_, rfl⟩
              · rw [if_neg hc]
                exact Or.inl rfl
          unfold lookAwayStep at hw
          rcases hshape1 with h1 | ⟨d, h1⟩ <;> rw [h1] at hw
          · by_cases hcond : lookAwayCond sig (eyesOpenMain fc sig) = true
            · rw [hcond] at hw
              simp only [if_true] at hw
              by_cases h45 : 45 < w1σ.2.lookAwayCount + 1 <;> simp [h45] at hw
              · exact Or.inr (Or.inl hw.symm)
            · simp only [Bool.not_eq_true] at hcond
              rw [hcond] at hw
              simp at hw
          · by_cases hcond : lookAwayCond sig (eyesOpenMain fc sig) = true
            · rw [hcond] at hw
              simp only [if_true] at hw
              by_cases h45 : 45 < w1σ.2.lookAwayCount + 1 <;> simp [h45] at hw <;>
                exact Or.inr (Or.inr ⟨d, hw.symm⟩)
            · simp only [Bool.not_eq_true] at hcond
              rw [hcond] at hw
              simp at hw
              exact Or.inr (Or.inr ⟨d, hw.symm⟩)
  rcases hshape with h | h | ⟨d, h⟩ <;> subst h <;>
    refine ⟨?_, ?_, ?_⟩ <;> intro ht <;>
    first
      | rfl
      | (exfalso; revert ht; simp [noFaceWarning, lookAwayWarning, sleepinessWarning])

/-- C9 (witness): the amended statement at the 61st no-face frame. -/
theorem C9_witness :
    (noFaceWarning 5).message =
      "⚠️ Warning: You are not visible on screen. Please return to your seat." :=
  (C9_theorem σ60 noFaceFrame 5 (noFaceWarning 5)
    (by norm_num [stepSession, σ60, noFaceFrame, initialSession, recomputeStatus])).1 rfl

/-- The eyes-open field the response recomputation reports is always the
recomputed value. -/
theorem recomputeStatus_eyesOpen (fc : Nat) (sig : SleepSignal) (σ : SessionState) (now : ℚ) :
    (recomputeStatus fc (some sig) σ now).1.eyesOpen = eyesOpenRecompute fc sig := by
  unfold recomputeStatus
  by_cases heo : eyesOpenRecompute fc sig = true
  · simp [heo]
  · cases ht : σ.eyeClosureStartTime <;> simp [heo, ht]

/-- C10 (counterexample): with the upstream eyes-open flag false the
response reports the eyes closed even though the EAR is at most 0.25, two
eyes are detected and the area ratio is at least 0.025 — against the claim
that every such frame is reported eyes open. -/
theorem C10_counterexample :
    sig10.avgEar = some (1/5) ∧ (1 : ℚ)/5 ≤ 1/4 ∧ 2 ≤ sig10.eyesDetected ∧
    (1 : ℚ)/40 ≤ sig10.eyeAreaRatio ∧
    (stepSession (initialSession 0) fs10 0).1.sleepiness.eyesOpen = false := by
  refine ⟨rfl, by norm_num, by norm_num [sig10], by norm_num [sig10], ?_⟩
  norm_num [stepSession, initialSession, fs10, sig10, eyesOpenMain, closureStep,
    lookAwayStep, lookAwayCond, recomputeStatus, eyesOpenRecompute, attentionScore]

/-- C10 (amended): the response recomputes the eyes from the upstream
eyes-open flag, the eye count and the area ratio, without the EAR rule; so
whenever the upstream flag is true, the EAR is at most 0.25, at least two
eyes are detected and the area ratio is at least 0.025, the response
reports the eyes open while the warning and score logic of the same call
treated them as closed. -/
theorem C10_theorem (σ : SessionState) (fs : FrameSignals) (now : ℚ) (sig : SleepSignal)
    (e : ℚ) (hs : fs.sleep = some sig) (hfc : 0 < fs.faceCount)
    (hraw : sig.eyesOpenRaw = true) (hear : sig.avgEar = some e) (he : e ≤ 1/4)
    (hdet : 2 ≤ sig.eyesDetected) (harea : 1/40 ≤ sig.eyeAreaRatio) :
    (stepSession σ fs now).1.sleepiness.eyesOpen = true ∧
    eyesOpenMain fs.faceCount sig = false ∧
    (stepSession σ fs now).1.attention.attentionLevel = attentionScore false sig := by
  obtain ⟨fc, sd⟩ := fs
  simp only at hs hfc ⊢
  subst hs
  have h0 : ¬ sig.eyesDetected = 0 := by omega
  have h1 : ¬ sig.eyesDetected = 1 := by omega
  have h2 : 1 < sig.eyesDetected := by omega
  have ha : ¬ sig.eyeAreaRatio < 1/40 := not_lt.mpr harea
  have hmain : eyesOpenMain fc sig = false := by
    unfold eyesOpenMain
    rw [hear]
    simp [h0, h1, h2, ha, not_lt.mpr he]
    intro _
    rw [inv_eq_one_div]
    exact he
  have hrec : eyesOpenRecompute fc sig = true := by
    unfold eyesOpenRecompute
    simp [h0, h1, h2, ha, hraw]
    rw [inv_eq_one_div]
    exact harea
  refine ⟨?_, hmain, ?_⟩
  · unfold stepSession
    rw [if_neg hfc.ne']
    simp only
    rw [recomputeStatus_eyesOpen, hrec]
  · unfold stepSession
    rw [if_neg hfc.ne']
    show attentionScore (eyesOpenMain fc sig) sig = attentionScore false sig
    rw [hmain]

/-- C10 (witness): the amended statement at the concrete divergent frame. -/
theorem C10_witness :
    (stepSession (initialSession 0) fs10t 0).1.sleepiness.eyesOpen = true ∧
    eyesOpenMain fs10t.faceCount sig10t = false ∧
    (stepSession (initialSession 0) fs10t 0).1.attention.attentionLevel =
      attentionScore false sig10t :=
  C10_theorem (initialSession 0) fs10t 0 sig10t (1/5) rfl (by norm_num [fs10t])
    rfl rfl (by norm_num) (by norm_num [sig10t, sig10]) (by norm_num [sig10t, sig10])

/-- C8 (counterexample): a call for an unknown session with a face present
fails (the KeyError path) instead of lazily creating a session; a no-face
call succeeds but still creates no session record. -/
theorem C8_counterexample :
    processAttention emptyGlobal "S" faceNoSleepFrame 0 = none ∧
    (processAttention emptyGlobal "S" noFaceFrame 0).map (fun rg => rg.2.sessions "S") =
      some none := by
  constructor <;> rfl

/-- C8 (amended): a process call for a session identifier not in the
session map never creates a session record: with a face present it fails
with an error and leaves the state untouched, and with no face it answers
the quiet payload and leaves the state untouched. -/
theorem C8_theorem (g : GlobalState) (sid : String) (fs : FrameSignals) (now : ℚ)
    (h : g.sessions sid = none) :
    (0 < fs.faceCount → processAttention g sid fs now = none) ∧
    (fs.faceCount = 0 →
      processAttention g sid fs now =
        some
          ({ status := "success"
             attention :=
               { faceDetected := decide (0 < fs.faceCount)
                 faceCount := fs.faceCount
                 lookingAtScreen := false
                 attentionLevel := 0 }
             sleepiness := recomputeNoSession fs
             warning := none }, g)) := by
  unfold processAttention
  rw [h]
  constructor
  · intro hfc
    simp only
    rw [if_neg hfc.ne']
  · intro h0
    simp only
    rw [if_pos h0]

/-- C8 (witness): the amended statement at a concrete unknown session. -/
theorem C8_witness : processAttention emptyGlobal "S" faceNoSleepFrame 0 = none :=
  (C8_theorem emptyGlobal "S" faceNoSleepFrame 0 rfl).1 (by norm_num [faceNoSleepFrame])

/-- C2 (confirmed): a sleepiness warning is returned exactly when a face is
present, sleep data is present, the eyes are determined closed, the running
closure duration reaches 3.0 s and at least 5.0 s passed since the last
sleepiness warning; and along a run of closed-eyes frames at 0 s, 2.9 s,
3.0 s, 3.5 s and 8.0 s of closure the warnings fall exactly on the 3.0 s and
8.0 s frames. -/
theorem C2_theorem :
    (∀ (σ : SessionState) (fs : FrameSignals) (now : ℚ),
        ((stepSession σ fs now).1.warning.map (fun w => w.wtype) = some "sleepiness") ↔
          (0 < fs.faceCount ∧ ∃ sig, fs.sleep = some sig ∧
            eyesOpenMain fs.faceCount sig = false ∧
            3 ≤ now - σ.eyeClosureStartTime.getD now ∧
            5 ≤ now - σ.lastWarningTime)) ∧
    ((runCalls (initialSession 0)
        [(closedFrame, 100), (closedFrame, 1029/10), (closedFrame, 103),
         (closedFrame, 207/2), (closedFrame, 108)]).1.map
      (fun r => (r.warning, r.sleepiness.isSleepy))) =
      [(none, false), (none, false), (some (sleepinessWarning 103 3), true), (none, true),
       (some (sleepinessWarning 108 8), true)] := by
  constructor
  · intro σ fs now
    obtain ⟨fc, sd⟩ := fs
    simp only
    by_cases h0 : fc = 0
    · subst h0
      refine iff_of_false ?_ (by simp)
      unfold stepSession
      simp only [if_pos rfl]
      by_cases h60 : 60 < σ.noFaceCount + 1 <;> simp [h60, noFaceWarning]
    · cases sd with
      | none =>
          refine iff_of_false ?_ (by simp)
          unfold stepSession
          rw [if_neg h0]
          simp
      | some sig =>
          unfold stepSession
          rw [if_neg h0]
          simp only
          rw [lookAwayStep_wtype]
          by_cases heo : eyesOpenMain fc sig = true
          · simp [heo]
          · simp only [heo, Bool.false_eq_true, if_false]
            unfold closureStep
            simp only
            by_cases hc : 3 ≤ now - σ.eyeClosureStartTime.getD now ∧
                5 ≤ now - σ.lastWarningTime
            · rw [if_pos hc]
              refine iff_of_true (by simp [sleepinessWarning]) ?_
              exact ⟨Nat.pos_of_ne_zero h0,
                sig, rfl, by simpa using heo, hc.1, hc.2⟩
            · rw [if_neg hc]
              refine iff_of_false (by simp) ?_
              rintro ⟨-, sig0, hs0, -, h3, h5⟩
              cases Option.some_inj.mp hs0
              exact hc ⟨h3, h5⟩
  · norm_num [runCalls, stepSession, closedFrame, sigClosed, initialSession, eyesOpenMain,
      closureStep, lookAwayStep, lookAwayCond, recomputeStatus, eyesOpenRecompute,
      attentionScore, sleepinessWarning]

/-- A request for another session identifier leaves this identifier's
session record and warning list untouched. -/
theorem stepE_other (g : GlobalState) (e : Event) (sid : String) (h : e.sid ≠ sid) :
    (stepE g e).1.sessions sid = g.sessions sid ∧
    (stepE g e).1.attnWarnings sid = g.attnWarnings sid := by
  unfold stepE processAttention
  cases hg : g.sessions e.sid with
  | some σ =>
      simp only [updSessions]
      constructor <;> exact if_neg (fun hs => h hs.symm)
  | none =>
      by_cases hf : e.fs.faceCount = 0 <;> simp [hf]

/-- A request reads only its own session's record and warning list: two
global states agreeing there produce the same response and agree there
afterwards. -/
theorem stepE_agree (g g' : GlobalState) (e : Event)
    (h1 : g.sessions e.sid = g'.sessions e.sid)
    (h2 : g.attnWarnings e.sid = g'.attnWarnings e.sid) :
    (stepE g e).2 = (stepE g' e).2 ∧
    (stepE g e).1.sessions e.sid = (stepE g' e).1.sessions e.sid ∧
    (stepE g e).1.attnWarnings e.sid = (stepE g' e).1.attnWarnings e.sid := by
  unfold stepE processAttention
  cases hg : g.sessions e.sid with
  | some σ =>
      rw [h1.symm.trans hg]
      refine ⟨rfl, ?_, ?_⟩ <;> simp [updSessions, h2]
  | none =>
      rw [h1.symm.trans hg]
      by_cases hf : e.fs.faceCount = 0 <;> simp [hf, h1, h2]

/-- Non-interference of the session tracker: for any session identifier,
the responses this identifier receives along any request sequence, and its
final session record and warning list, are those of running only its own
requests; two starting states agreeing on this identifier stay in step. -/
theorem traceE_project (sid : String) :
    ∀ (es : List Event) (g g' : GlobalState),
      g.sessions sid = g'.sessions sid →
      g.attnWarnings sid = g'.attnWarnings sid →
      ((traceE g es).filter (fun p => p.1 == sid) =
          traceE g' (es.filter (fun e => e.sid == sid)) ∧
        (runE g es).sessions sid = (runE g' (es.filter (fun e => e.sid == sid))).sessions sid ∧
        (runE g es).attnWarnings sid =
          (runE g' (es.filter (fun e => e.sid == sid))).attnWarnings sid)
  | [], g, g', h1, h2 => by simp [traceE, runE, h1, h2]
  | e :: t, g, g', h1, h2 => by
      by_cases he : e.sid = sid
      · subst he
        have ha := stepE_agree g g' e h1 h2
        have ih := traceE_project e.sid t (stepE g e).1 (stepE g' e).1 ha.2.1 ha.2.2
        simp only [traceE, runE, List.filter_cons, beq_self_eq_true, if_true]
        simp [traceE, runE, ha.1, ih.1, ih.2.1, ih.2.2]
      · have ho := stepE_other g e sid he
        have ih := traceE_project sid t (stepE g e).1 g' (ho.1.trans h1) (ho.2.trans h2)
        have hne : (e.sid == sid) = false := beq_eq_false_iff_ne.mpr he
        simp only [traceE, runE, List.filter_cons, hne, if_false, Bool.false_eq_true]
        exact ih

/-- C7 (counterexample): calls for different sessions do share mutable
state. Two closed-eyes frames of session A advance the globally shared
sleep-detector closure counter for face index 0 from 0 to 2, and the sleep
signal the next call derives (for any session, e.g. B) then reports
drowsiness, while from the initial detector it does not. -/
theorem C7_counterexample :
    endpointE2.detector.eyeClosureCounter "face_0" ≠
      endpointE0.detector.eyeClosureCounter "face_0" ∧
    (sleepProcessFrame endpointE2.detector closedEndpointFrame).1.map (fun s => s.isDrowsy) =
      some true ∧
    (sleepProcessFrame endpointE0.detector closedEndpointFrame).1.map (fun s => s.isDrowsy) =
      some false := by
  norm_num [endpointE2, endpointE1, endpointE0, processAttentionEndpoint, sleepProcessFrame,
    checkDrowsiness, closedEndpointFrame, startAttention, emptyGlobal, initDrowsyState,
    initialSession, processAttention, stepSession, eyesOpenMain, closureStep, lookAwayStep,
    lookAwayCond, recomputeStatus, eyesOpenRecompute, attentionScore, sleepinessWarning,
    updSessions]

/-- C7 (amended): given the same per-frame signals, any interleaving of
requests gives every session the responses, session record and warning list
of its isolated run — the tracker state is per-session; but the calls do
share mutable state at the endpoint: the sleep-detector drowsiness counter,
keyed by face index and not by session, is advanced by session A's calls
and read into the drowsiness signal of the next call of any session. -/
theorem C7_theorem (sid : String) (g : GlobalState) (es : List Event) :
    ((traceE g es).filter (fun p => p.1 == sid) =
      traceE g (es.filter (fun e => e.sid == sid))) ∧
    (runE g es).sessions sid = (runE g (es.filter (fun e => e.sid == sid))).sessions sid ∧
    (runE g es).attnWarnings sid =
      (runE g (es.filter (fun e => e.sid == sid))).attnWarnings sid ∧
    endpointE2.detector.eyeClosureCounter "face_0" = 2 ∧
    endpointE0.detector.eyeClosureCounter "face_0" = 0 ∧
    (sleepProcessFrame endpointE2.detector closedEndpointFrame).1 ≠
      (sleepProcessFrame endpointE0.detector closedEndpointFrame).1 := by
  have hp := traceE_project sid es g g rfl rfl
  refine ⟨hp.1, hp.2.1, hp.2.2, ?_, rfl, ?_⟩ <;>
    norm_num [endpointE2, endpointE1, endpointE0, processAttentionEndpoint, sleepProcessFrame,
      checkDrowsiness, closedEndpointFrame, startAttention, emptyGlobal, initDrowsyState,
      initialSession, processAttention, stepSession, eyesOpenMain, closureStep, lookAwayStep,
      lookAwayCond, recomputeStatus, eyesOpenRecompute, attentionScore, sleepinessWarning,
      updSessions]

end EduQuest
